import Mathlib

/-!
Shallow embedding of the memory subsystem of the scos kernel:
the fixed-size block allocator (src/allocator/fixed_size_block.rs),
the heap initializer (src/allocator/mod.rs), the boot-info frame
allocator and the address translator (src/memory.rs).

Definitions come first, then the lemmas and theorems about them.
-/

-- ---------------------------------------------------------------------------
-- Block allocator: constants and class selection (fixed_size_block.rs)
-- ---------------------------------------------------------------------------

/-- Sizes of blocks to be used for the allocator
(constant BLOCK_SIZES in fixed_size_block.rs). -/
def BLOCK_SIZES : List Nat := [8, 16, 32, 64, 128, 256, 512, 1024, 2048]

/-- A Rust core alloc Layout: a size and an alignment, both in bytes. -/
structure Layout where
  size : Nat
  align : Nat
deriving DecidableEq, Repr

/-- Iterator position: index of the first element satisfying the predicate
(Rust Iterator position used by list_index). -/
def position (p : Nat → Prop) [DecidablePred p] : List Nat → Option Nat
  | [] => none
  | x :: xs => if p x then some 0 else Option.map (· + 1) (position p xs)

/-- Get the index of the block size that this particular layout should fit in
(function list_index in fixed_size_block.rs): the first index whose block
size is at least max(size, align). -/
def list_index (layout : Layout) : Option Nat :=
  position (fun s => layout.size.max layout.align ≤ s) BLOCK_SIZES

-- ---------------------------------------------------------------------------
-- Block allocator: state and operations (fixed_size_block.rs)
-- ---------------------------------------------------------------------------

/-- Size in bytes of ListNode (one Option next pointer, niche-optimized to a
single 8-byte pointer on x86-64). -/
def LIST_NODE_SIZE : Nat := 8

/-- Alignment in bytes of ListNode on x86-64. -/
def LIST_NODE_ALIGN : Nat := 8

/-- The FixedSizeBlockAllocator state.  The Rust array of per-class free-list
heads (intrusive singly linked lists of freed block addresses stored inside
the freed memory) is modelled as a function from class index to the list of
node addresses; the linked_list_allocator fallback heap is kept abstract as a
value of type F manipulated only through supplied functions. -/
structure FixedSizeBlockAllocator (F : Type) where
  list_heads : Nat → List Nat
  fallback_allocator : F

/-- Result of one GlobalAlloc alloc call: the returned pointer (none models a
null return), the post state, and whether the fallback allocator was
invoked. -/
structure AllocResult (F : Type) where
  ptr : Option Nat
  state : FixedSizeBlockAllocator F
  used_fallback : Bool

/-- GlobalAlloc alloc for Locked FixedSizeBlockAllocator.  fAlloc models
linked_list_allocator Heap allocate_first_fit composed with the fallback_alloc
helper (Ok gives the pointer, Err gives a null, i.e. none). -/
def alloc {F : Type} (fAlloc : F → Layout → Option Nat × F)
    (a : FixedSizeBlockAllocator F) (layout : Layout) : AllocResult F :=
  match list_index layout with
  | some index =>
    match a.list_heads index with
    | node :: rest =>
      -- pop the head node: the head becomes the node's next
      ⟨some node,
       ⟨fun j => if j = index then rest else a.list_heads j,
        a.fallback_allocator⟩,
       false⟩
    | [] =>
      -- request a fresh block of the class's size and alignment
      let block_size := BLOCK_SIZES.getD index 0
      let block_align := block_size
      let r := fAlloc a.fallback_allocator ⟨block_size, block_align⟩
      ⟨r.1, ⟨a.list_heads, r.2⟩, true⟩
  | none =>
    let r := fAlloc a.fallback_allocator layout
    ⟨r.1, ⟨a.list_heads, r.2⟩, true⟩

/-- Outcome of one dealloc call that did not panic: the post state, whether
the fallback allocator's deallocate was invoked, and whether the two run-time
assert statements guarding the free-list node write were evaluated on this
call. -/
structure DeallocOutcome (F : Type) where
  state : FixedSizeBlockAllocator F
  used_fallback : Bool
  checked_asserts : Bool

/-- GlobalAlloc dealloc for Locked FixedSizeBlockAllocator.  none models a
panic: either a failing assert in the size-class branch, or the NonNull unwrap
on a null pointer in the fallback branch.  fDealloc models the fallback heap's
deallocate. -/
def dealloc {F : Type} (fDealloc : F → Nat → Layout → F)
    (a : FixedSizeBlockAllocator F) (p : Nat) (layout : Layout) :
    Option (DeallocOutcome F) :=
  match list_index layout with
  | some index =>
    -- assert that the block can store a ListNode, then write the node at p
    -- pointing to the current head and make p the new head
    if LIST_NODE_SIZE ≤ BLOCK_SIZES.getD index 0 ∧
       LIST_NODE_ALIGN ≤ BLOCK_SIZES.getD index 0 then
      some ⟨⟨fun j => if j = index then p :: a.list_heads index
               else a.list_heads j,
             a.fallback_allocator⟩,
            false, true⟩
    else none
  | none =>
    -- NonNull::new(ptr).unwrap() panics on a null pointer
    if p = 0 then none
    else some ⟨⟨a.list_heads, fDealloc a.fallback_allocator p layout⟩,
               true, false⟩

-- ---------------------------------------------------------------------------
-- Boot-info frame allocator (memory.rs)
-- ---------------------------------------------------------------------------

/-- Region kind from the bootloader memory map; only Usable matters here. -/
inductive MemoryRegionType
  | Usable
  | InUse
deriving DecidableEq, Repr

/-- One bootloader memory-map region: a byte address range and its kind. -/
structure MemoryRegion where
  start_addr : Nat
  end_addr : Nat
  region_type : MemoryRegionType
deriving DecidableEq, Repr

/-- PhysFrame containing_address: align an address down to its 4096-byte
frame base. -/
def containing_address (a : Nat) : Nat := a / 4096 * 4096

/-- Rust range start..stop stepped by 4096: the addresses
start, start + 4096, ... strictly below stop. -/
def step_by_4096 (start stop : Nat) : List Nat :=
  (List.range ((stop - start + 4095) / 4096)).map (fun i => start + 4096 * i)

/-- BootInfoFrameAllocator useable_frames: filter the map's regions to the
usable ones, expand each byte range stepped by 4096, and align each address
down to its containing frame. -/
def useable_frames (memory_map : List MemoryRegion) : List Nat :=
  ((memory_map.filter
      (fun r => r.region_type = MemoryRegionType.Usable)).flatMap
    (fun r => step_by_4096 r.start_addr r.end_addr)).map containing_address

/-- The BootInfoFrameAllocator state: the memory map and the cursor next. -/
structure BootInfoFrameAllocator where
  memory_map : List MemoryRegion
  next : Nat
deriving DecidableEq, Repr

/-- BootInfoFrameAllocator init: cursor starts at 0. -/
def BootInfoFrameAllocator.init (m : List MemoryRegion) :
    BootInfoFrameAllocator :=
  ⟨m, 0⟩

/-- allocate_frame: take the next-th usable frame (recomputed from the map
each call) and advance the cursor, whether or not a frame was found. -/
def allocate_frame (a : BootInfoFrameAllocator) :
    Option Nat × BootInfoFrameAllocator :=
  ((useable_frames a.memory_map).get? a.next, ⟨a.memory_map, a.next + 1⟩)

/-- State of the frame allocator after n successive allocate_frame calls. -/
def frame_state_after (a : BootInfoFrameAllocator) : Nat → BootInfoFrameAllocator
  | 0 => a
  | n + 1 => (allocate_frame (frame_state_after a n)).2

/-- Result of the (k+1)-th allocate_frame call, i.e. the call made after k
earlier calls. -/
def call_result (a : BootInfoFrameAllocator) (k : Nat) : Option Nat :=
  (allocate_frame (frame_state_after a k)).1

/-- A memory map holding exactly one usable region of 16 frames starting at
frame number s. -/
def map16 (s : Nat) : List MemoryRegion :=
  [⟨4096 * s, 4096 * s + 16 * 4096, MemoryRegionType.Usable⟩]

-- ---------------------------------------------------------------------------
-- Heap initializer (allocator/mod.rs)
-- ---------------------------------------------------------------------------

/-- Heap start virtual address (constant HEAP_START). -/
def HEAP_START : Nat := 0x444444440000

/-- Heap size in bytes (constant HEAP_SIZE). -/
def HEAP_SIZE : Nat := 10240

/-- The inclusive page range covering the heap window: from the page
containing HEAP_START to the page containing HEAP_START + HEAP_SIZE - 1. -/
def heap_page_range : List Nat :=
  let heap_start := HEAP_START
  let heap_end := heap_start + HEAP_SIZE - 1
  let start_page := containing_address heap_start
  let end_page := containing_address heap_end
  (List.range ((end_page - start_page) / 4096 + 1)).map
    (fun i => start_page + 4096 * i)

/-- The x86_64 crate's MapToError variants for 4KiB mappings. -/
inductive MapToError
  | FrameAllocationFailed
  | ParentEntryHugePage
  | PageAlreadyMapped
deriving DecidableEq, Repr

/-- Contains information about the kernel heap (struct HeapInfo).  The code
stores page_range.start, which is a virtual Page, in the field named
start_phys_addr (the Rust field has type Page). -/
structure HeapInfo where
  start_virt_addr : Nat
  start_phys_addr : Nat
  size : Nat
deriving DecidableEq, Repr

/-- The per-page loop of init_heap: allocate a frame (a none from the frame
allocator becomes MapToError.FrameAllocationFailed) and map the page to it;
stop at the first error.  mapTo models Mapper map_to, which may also mutate
the frame allocator to build intermediate tables and returns its own error
with whatever states it left behind.  Returns the loop status together with
the final mapper and frame-allocator states. -/
def init_heap_loop {M F : Type}
    (mapTo : M → Nat → Nat → F → Except MapToError Unit × M × F)
    (allocFrame : F → Option Nat × F) :
    List Nat → M → F → Except MapToError Unit × M × F
  | [], m, fa => (Except.ok (), m, fa)
  | p :: ps, m, fa =>
    match allocFrame fa with
    | (none, fa1) => (Except.error MapToError.FrameAllocationFailed, m, fa1)
    | (some f, fa1) =>
      match mapTo m p f fa1 with
      | (Except.ok _, m1, fa2) => init_heap_loop mapTo allocFrame ps m1 fa2
      | (Except.error e, m1, fa2) => (Except.error e, m1, fa2)

/-- init_heap: run the loop over heap_page_range; on success initialize the
global block allocator with (HEAP_START, HEAP_SIZE) (returned here as the
fourth component, none when initialization was never reached) and return the
HeapInfo descriptor; on error return that error immediately. -/
def init_heap {M F : Type}
    (mapTo : M → Nat → Nat → F → Except MapToError Unit × M × F)
    (allocFrame : F → Option Nat × F) (m : M) (fa : F) :
    Except MapToError HeapInfo × M × F × Option (Nat × Nat) :=
  match init_heap_loop mapTo allocFrame heap_page_range m fa with
  | (Except.ok _, m1, fa1) =>
    (Except.ok ⟨HEAP_START, containing_address HEAP_START, HEAP_SIZE⟩,
     m1, fa1, some (HEAP_START, HEAP_SIZE))
  | (Except.error e, m1, fa1) => (Except.error e, m1, fa1, none)

-- ---------------------------------------------------------------------------
-- Address translator (memory.rs)
-- ---------------------------------------------------------------------------

/-- A page-table entry as seen through PageTableEntry frame(): present with
the next frame's base address, absent, or a huge-page leaf. -/
inductive PTEntry
  | present (frame : Nat)
  | notPresent
  | hugePage (frame : Nat)

/-- Result of a page-table walk over the index list. -/
inductive WalkResult
  | done (frame : Nat)
  | notMapped
  | hugeStop

/-- Outcome of translate_addr: a physical address, unmapped, or the fatal
huge-page condition (the Rust code panics there). -/
inductive TranslateResult
  | mapped (pa : Nat)
  | unmapped
  | fatalHuge
deriving DecidableEq, Repr

/-- Level-4 table index of a virtual address (bits 39..47). -/
def p4_index (a : Nat) : Nat := a / 2 ^ 39 % 512

/-- Level-3 table index of a virtual address (bits 30..38). -/
def p3_index (a : Nat) : Nat := a / 2 ^ 30 % 512

/-- Level-2 table index of a virtual address (bits 21..29). -/
def p2_index (a : Nat) : Nat := a / 2 ^ 21 % 512

/-- Level-1 table index of a virtual address (bits 12..20). -/
def p1_index (a : Nat) : Nat := a / 2 ^ 12 % 512

/-- Page offset of a virtual address (low 12 bits). -/
def page_offset (a : Nat) : Nat := a % 4096

/-- The loop of translate_addr_inner: follow each index into the table at the
current frame (read through the physical-memory offset mapping, abstracted
into mem : table frame base → index → entry), updating the frame from each
present entry. -/
def pt_walk (mem : Nat → Nat → PTEntry) : Nat → List Nat → WalkResult
  | f, [] => WalkResult.done f
  | f, i :: rest =>
    match mem f i with
    | PTEntry.present f2 => pt_walk mem f2 rest
    | PTEntry.notPresent => WalkResult.notMapped
    | PTEntry.hugePage _ => WalkResult.hugeStop

/-- translate_addr_inner: walk the four levels from the Cr3 root frame and
add the page offset to the final frame's base address.  An absent entry gives
unmapped; a huge-page entry gives the fatal (panicking) result. -/
def translate_addr_inner (mem : Nat → Nat → PTEntry) (root : Nat)
    (addr : Nat) : TranslateResult :=
  match pt_walk mem root [p4_index addr, p3_index addr, p2_index addr,
      p1_index addr] with
  | WalkResult.done f => TranslateResult.mapped (f + page_offset addr)
  | WalkResult.notMapped => TranslateResult.unmapped
  | WalkResult.hugeStop => TranslateResult.fatalHuge

/-- translate_addr simply delegates to translate_addr_inner. -/
def translate_addr (mem : Nat → Nat → PTEntry) (root : Nat) (addr : Nat) :
    TranslateResult :=
  translate_addr_inner mem root addr

-- ---------------------------------------------------------------------------
-- Concrete instances used by witnesses and counterexamples
-- ---------------------------------------------------------------------------

/-- A trivial fallback heap whose allocate always fails. -/
def failAlloc : Unit → Layout → Option Nat × Unit := fun u _ => (none, u)

/-- A trivial fallback heap deallocate. -/
def unitDealloc : Unit → Nat → Layout → Unit := fun u _ _ => u

/-- A fallback heap modelled as a bump counter: block k is at
0x9000 + 64 * k. -/
def bumpAlloc : Nat → Layout → Option Nat × Nat :=
  fun n _ => (some (0x9000 + 64 * n), n + 1)

/-- A block-allocator state whose class-2 free list holds one node at 555
and whose other lists are empty. -/
def fsba0 : FixedSizeBlockAllocator Unit :=
  ⟨fun j => if j = 2 then [555] else [], ()⟩

/-- An empty block-allocator state over the bump fallback heap. -/
def fsbaEmpty : FixedSizeBlockAllocator Nat :=
  ⟨fun _ => [], 0⟩

/-- An empty block-allocator state over the trivial fallback heap. -/
def fsbaUnitEmpty : FixedSizeBlockAllocator Unit :=
  ⟨fun _ => [], ()⟩

/-- A mapper that records each installed (page, frame) mapping in a log and
always succeeds. -/
def mapToLog : List (Nat × Nat) → Nat → Nat → Nat →
    Except MapToError Unit × List (Nat × Nat) × Nat :=
  fun m p f fa => (Except.ok (), m ++ [(p, f)], fa)

/-- A frame allocator handing out the frames 0x1000, 0x2000, 0x3000, ... -/
def seqAlloc : Nat → Option Nat × Nat :=
  fun n => (some (0x1000 + 4096 * n), n + 1)

/-- A frame allocator that hands out a single frame 0x1000 and is exhausted
afterwards. -/
def oneFrameAlloc : Nat → Option Nat × Nat :=
  fun n => (if n = 0 then some 0x1000 else none, n + 1)

/-- A concrete page-table memory: at index 0 the chain of table frames
100 → 200 → 300 → 400 → 5000; the table at frame 50 holds a huge-page leaf
at index 0; everything else is absent. -/
def wMem : Nat → Nat → PTEntry :=
  fun f i =>
    if i = 0 then
      if f = 100 then PTEntry.present 200
      else if f = 200 then PTEntry.present 300
      else if f = 300 then PTEntry.present 400
      else if f = 400 then PTEntry.present 5000
      else if f = 50 then PTEntry.hugePage 77
      else PTEntry.notPresent
    else PTEntry.notPresent

-- ---------------------------------------------------------------------------
-- Helper lemmas
-- ---------------------------------------------------------------------------

theorem position_lt_length (p : Nat → Prop) [DecidablePred p] (xs : List Nat)
    (i : Nat) (h : position p xs = some i) : i < xs.length := by
  induction xs generalizing i with
  | nil => simp [position] at h
  | cons x xs ih =>
    rw [position] at h
    by_cases hp : p x
    · rw [if_pos hp] at h
      simp at h
      simp [← h]
    · rw [if_neg hp] at h
      match hpos : position p xs with
      | none => rw [hpos] at h; simp at h
      | some j =>
        rw [hpos] at h
        simp at h
        have := ih j hpos
        simp [← h]
        omega

theorem list_index_lt (l : Layout) (i : Nat) (h : list_index l = some i) :
    i < 9 := by
  have := position_lt_length _ BLOCK_SIZES i h
  simpa [BLOCK_SIZES] using this

/-- Every block size is at least 8 bytes, so a freed block can always hold a
free-list node (8 bytes, 8-aligned on x86-64). -/
theorem block_sizes_ge_8 (i : Nat) (h : i < 9) : 8 ≤ BLOCK_SIZES.getD i 0 := by
  interval_cases i <;> decide

/-- A freed block of any size class can store a ListNode, so the asserts in
dealloc always pass. -/
theorem list_index_node_fits (l : Layout) (i : Nat)
    (h : list_index l = some i) :
    LIST_NODE_SIZE ≤ BLOCK_SIZES.getD i 0 ∧
    LIST_NODE_ALIGN ≤ BLOCK_SIZES.getD i 0 := by
  have hlt := list_index_lt l i h
  exact ⟨block_sizes_ge_8 i hlt, block_sizes_ge_8 i hlt⟩

-- ---------------------------------------------------------------------------
-- C1
-- ---------------------------------------------------------------------------

/-- C1: for every request (size, align) with max(size, align) at most 2048,
list_index selects the index of the smallest entry of BLOCK_SIZES that is at
least max(size, align); for larger requests it selects no class (none). -/
theorem C1_list_index_selects_min_class (size align : Nat) :
    (size.max align ≤ 2048 →
      ∃ i c, list_index ⟨size, align⟩ = some i ∧ BLOCK_SIZES.getD i 0 = c ∧
        size.max align ≤ c ∧
        ∀ c2 ∈ BLOCK_SIZES, size.max align ≤ c2 → c ≤ c2) ∧
    (2048 < size.max align → list_index ⟨size, align⟩ = none) := by
  constructor
  · intro hle
    set r := size.max align with hr
    by_cases h8 : r ≤ 8
    · refine ⟨0, 8, ?_, by decide, h8, ?_⟩
      · simp [list_index, position, ← hr, h8]
      · intro c2 hc2 _; fin_cases hc2 <;> omega
    · by_cases h16 : r ≤ 16
      · refine ⟨1, 16, ?_, by decide, h16, ?_⟩
        · simp [list_index, position, ← hr, h8, h16]
        · intro c2 hc2 hrc2; fin_cases hc2 <;> omega
      · by_cases h32 : r ≤ 32
        · refine ⟨2, 32, ?_, by decide, h32, ?_⟩
          · simp [list_index, position, ← hr, h8, h16, h32]
          · intro c2 hc2 hrc2; fin_cases hc2 <;> omega
        · by_cases h64 : r ≤ 64
          · refine ⟨3, 64, ?_, by decide, h64, ?_⟩
            · simp [list_index, position, ← hr, h8, h16, h32, h64]
            · intro c2 hc2 hrc2; fin_cases hc2 <;> omega
          · by_cases h128 : r ≤ 128
            · refine ⟨4, 128, ?_, by decide, h128, ?_⟩
              · simp [list_index, position, ← hr, h8, h16, h32, h64, h128]
              · intro c2 hc2 hrc2; fin_cases hc2 <;> omega
            · by_cases h256 : r ≤ 256
              · refine ⟨5, 256, ?_, by decide, h256, ?_⟩
                · simp [list_index, position, ← hr, h8, h16, h32, h64, h128,
                    h256]
                · intro c2 hc2 hrc2; fin_cases hc2 <;> omega
              · by_cases h512 : r ≤ 512
                · refine ⟨6, 512, ?_, by decide, h512, ?_⟩
                  · simp [list_index, position, ← hr, h8, h16, h32, h64, h128,
                      h256, h512]
                  · intro c2 hc2 hrc2; fin_cases hc2 <;> omega
                · by_cases h1024 : r ≤ 1024
                  · refine ⟨7, 1024, ?_, by decide, h1024, ?_⟩
                    · simp [list_index, position, ← hr, h8, h16, h32, h64,
                        h128, h256, h512, h1024]
                    · intro c2 hc2 hrc2; fin_cases hc2 <;> omega
                  · refine ⟨8, 2048, ?_, by decide, hle, ?_⟩
                    · simp [list_index, position, ← hr, h8, h16, h32, h64,
                        h128, h256, h512, h1024, hle]
                    · intro c2 hc2 hrc2; fin_cases hc2 <;> omega
  · intro hgt
    have h8 : ¬ (size.max align ≤ 8) := by omega
    have h16 : ¬ (size.max align ≤ 16) := by omega
    have h32 : ¬ (size.max align ≤ 32) := by omega
    have h64 : ¬ (size.max align ≤ 64) := by omega
    have h128 : ¬ (size.max align ≤ 128) := by omega
    have h256 : ¬ (size.max align ≤ 256) := by omega
    have h512 : ¬ (size.max align ≤ 512) := by omega
    have h1024 : ¬ (size.max align ≤ 1024) := by omega
    have h2048 : ¬ (size.max align ≤ 2048) := by omega
    simp [list_index, position, h8, h16, h32, h64, h128, h256, h512, h1024,
      h2048]

/-- Witness for C1 at the concrete requests (20, 4) and (5000, 1). -/
theorem C1_witness :
    (∃ i c, list_index ⟨20, 4⟩ = some i ∧ BLOCK_SIZES.getD i 0 = c ∧
      Nat.max 20 4 ≤ c ∧ ∀ c2 ∈ BLOCK_SIZES, Nat.max 20 4 ≤ c2 → c ≤ c2) ∧
    list_index ⟨5000, 1⟩ = none :=
  ⟨(C1_list_index_selects_min_class 20 4).1 (by decide),
   (C1_list_index_selects_min_class 5000 1).2 (by decide)⟩

-- ---------------------------------------------------------------------------
-- C4
-- ---------------------------------------------------------------------------

/-- C4: after an alloc for class c returns address A, deallocating A with a
layout mapping to class c and then allocating again with a layout mapping to
class c returns A itself, without invoking the fallback allocator and leaving
its state untouched. -/
theorem C4_free_then_alloc_reuses_address {F : Type}
    (fAlloc : F → Layout → Option Nat × F) (fDealloc : F → Nat → Layout → F)
    (a : FixedSizeBlockAllocator F) (l1 l2 l3 : Layout) (c A : Nat)
    (h1 : list_index l1 = some c)
    (hA : (alloc fAlloc a l1).ptr = some A)
    (h2 : list_index l2 = some c)
    (h3 : list_index l3 = some c) :
    ∃ out, dealloc fDealloc (alloc fAlloc a l1).state A l2 = some out ∧
      (alloc fAlloc out.state l3).ptr = some A ∧
      (alloc fAlloc out.state l3).used_fallback = false ∧
      (alloc fAlloc out.state l3).state.fallback_allocator =
        out.state.fallback_allocator := by
  obtain ⟨hsz, hal⟩ := list_index_node_fits l2 c h2
  have hfit : LIST_NODE_SIZE ≤ BLOCK_SIZES[c]?.getD 0 ∧
      LIST_NODE_ALIGN ≤ BLOCK_SIZES[c]?.getD 0 := by
    simpa using And.intro hsz hal
  refine ⟨⟨⟨fun j => if j = c then A :: (alloc fAlloc a l1).state.list_heads c
        else (alloc fAlloc a l1).state.list_heads j,
      (alloc fAlloc a l1).state.fallback_allocator⟩, false, true⟩,
    ?_, ?_, ?_, ?_⟩
  · simp [dealloc, h2, hfit.1, hfit.2]
  · simp [alloc, h3]
  · simp [alloc, h3]
  · simp [alloc, h3]

/-- Witness for C4: on fsba0 the first alloc of (20, 4) pops 555; freeing it
as (24, 8) and allocating (32, 1) yields 555 again without the fallback. -/
theorem C4_witness :
    (alloc failAlloc
      ((dealloc unitDealloc (alloc failAlloc fsba0 ⟨20, 4⟩).state 555
          ⟨24, 8⟩).getD ⟨fsba0, false, false⟩).state ⟨32, 1⟩).ptr =
        some 555 ∧
    (alloc failAlloc
      ((dealloc unitDealloc (alloc failAlloc fsba0 ⟨20, 4⟩).state 555
          ⟨24, 8⟩).getD ⟨fsba0, false, false⟩).state
        ⟨32, 1⟩).used_fallback = false := by
  obtain ⟨out, hd, hp, hf, _⟩ :=
    C4_free_then_alloc_reuses_address failAlloc unitDealloc fsba0
      ⟨20, 4⟩ ⟨24, 8⟩ ⟨32, 1⟩ 2 555 (by decide) (by decide) (by decide)
      (by decide)
  rw [hd]
  exact ⟨hp, hf⟩

-- ---------------------------------------------------------------------------
-- C5
-- ---------------------------------------------------------------------------

/-- C5: when a size class qualifies, alloc pops the head node of a non-empty
free list and returns its address without touching the fallback allocator;
on an empty free list it requests a fresh block of exactly the class's block
size with alignment equal to that same block size from the fallback allocator
and returns that block's address. -/
theorem C5_alloc_class_paths {F : Type}
    (fAlloc : F → Layout → Option Nat × F) (a : FixedSizeBlockAllocator F)
    (l : Layout) (i : Nat) (h : list_index l = some i) :
    (∀ node rest, a.list_heads i = node :: rest →
      alloc fAlloc a l =
        ⟨some node,
         ⟨fun j => if j = i then rest else a.list_heads j,
          a.fallback_allocator⟩,
         false⟩) ∧
    (a.list_heads i = [] →
      alloc fAlloc a l =
        ⟨(fAlloc a.fallback_allocator
            ⟨BLOCK_SIZES.getD i 0, BLOCK_SIZES.getD i 0⟩).1,
         ⟨a.list_heads,
          (fAlloc a.fallback_allocator
            ⟨BLOCK_SIZES.getD i 0, BLOCK_SIZES.getD i 0⟩).2⟩,
         true⟩) := by
  constructor
  · intro node rest hh
    simp [alloc, h, hh]
  · intro hh
    simp [alloc, h, hh]

/-- Witness for C5: fsba0 pops its class-2 node 555 on a (20, 4) request, and
the empty fsbaEmpty forwards a (24, 8) request to the bump fallback with
layout (32, 32), yielding the fresh block 0x9000. -/
theorem C5_witness :
    (alloc failAlloc fsba0 ⟨20, 4⟩).ptr = some 555 ∧
    (alloc failAlloc fsba0 ⟨20, 4⟩).used_fallback = false ∧
    (alloc bumpAlloc fsbaEmpty ⟨24, 8⟩).ptr = some 0x9000 ∧
    (alloc bumpAlloc fsbaEmpty ⟨24, 8⟩).used_fallback = true := by
  have h1 := (C5_alloc_class_paths failAlloc fsba0 ⟨20, 4⟩ 2 (by decide)).1
    555 [] (by decide)
  have h2 := (C5_alloc_class_paths bumpAlloc fsbaEmpty ⟨24, 8⟩ 2
    (by decide)).2 (by decide)
  rw [h1, h2]
  refine ⟨rfl, rfl, ?_, rfl⟩
  decide

-- ---------------------------------------------------------------------------
-- C6 (corrected)
-- ---------------------------------------------------------------------------

/-- Counterexample for C6 as stated: the size/alignment check is not a
one-time static configuration assertion; it is evaluated by the dealloc call
itself.  Concretely, deallocating address 1000 with layout (20, 4) evaluates
the two assert statements during that call. -/
theorem C6_counterexample :
    Option.map DeallocOutcome.checked_asserts
      (dealloc unitDealloc fsba0 1000 ⟨20, 4⟩) = some true := by
  decide

/-- C6 (amended): the invariant that a free-list node's size and alignment
requirements are each at most the class's block size holds for every entry of
the table, so the assertions in dealloc never fail; however the check is
executed inside every deallocation call that maps to a size class, not once
as a static configuration assertion. -/
theorem C6_node_invariant_checked_per_call :
    (∀ i, i < BLOCK_SIZES.length →
      LIST_NODE_SIZE ≤ BLOCK_SIZES.getD i 0 ∧
      LIST_NODE_ALIGN ≤ BLOCK_SIZES.getD i 0) ∧
    (∀ (F : Type) (fDealloc : F → Nat → Layout → F)
      (a : FixedSizeBlockAllocator F) (p : Nat) (l : Layout) (i : Nat),
      list_index l = some i →
      ∃ out, dealloc fDealloc a p l = some out ∧
        out.checked_asserts = true) := by
  constructor
  · intro i hi
    simp only [BLOCK_SIZES, List.length] at hi
    have h := block_sizes_ge_8 i (by omega)
    exact ⟨h, h⟩
  · intro F fDealloc a p l i h
    obtain ⟨hsz, hal⟩ := list_index_node_fits l i h
    have hfit : LIST_NODE_SIZE ≤ BLOCK_SIZES[i]?.getD 0 ∧
        LIST_NODE_ALIGN ≤ BLOCK_SIZES[i]?.getD 0 := by
      simpa using And.intro hsz hal
    refine ⟨⟨⟨fun j => if j = i then p :: a.list_heads i
          else a.list_heads j, a.fallback_allocator⟩, false, true⟩, ?_, rfl⟩
    simp [dealloc, h, hfit.1, hfit.2]

/-- Witness for the amended C6 at class index 3 and a concrete dealloc of
address 2000 with layout (40, 8). -/
theorem C6_witness :
    (LIST_NODE_SIZE ≤ BLOCK_SIZES.getD 3 0 ∧
     LIST_NODE_ALIGN ≤ BLOCK_SIZES.getD 3 0) ∧
    Option.map DeallocOutcome.checked_asserts
      (dealloc unitDealloc fsba0 2000 ⟨40, 8⟩) = some true := by
  refine ⟨C6_node_invariant_checked_per_call.1 3 (by decide), ?_⟩
  obtain ⟨out, hd, hc⟩ := C6_node_invariant_checked_per_call.2 Unit
    unitDealloc fsba0 2000 ⟨40, 8⟩ 3 (by decide)
  rw [hd]
  simpa using hc

-- ---------------------------------------------------------------------------
-- C7
-- ---------------------------------------------------------------------------

/-- C7: when a request reaches the fallback allocator (no qualifying class,
or the qualifying class's free list is empty) and the fallback cannot satisfy
it, alloc returns the null result and every class's free-list head is
unchanged. -/
theorem C7_fallback_failure_preserves_lists {F : Type}
    (fAlloc : F → Layout → Option Nat × F) (a : FixedSizeBlockAllocator F)
    (l : Layout) :
    (list_index l = none → (fAlloc a.fallback_allocator l).1 = none →
      (alloc fAlloc a l).ptr = none ∧
      ∀ i, (alloc fAlloc a l).state.list_heads i = a.list_heads i) ∧
    (∀ i, list_index l = some i → a.list_heads i = [] →
      (fAlloc a.fallback_allocator
        ⟨BLOCK_SIZES.getD i 0, BLOCK_SIZES.getD i 0⟩).1 = none →
      (alloc fAlloc a l).ptr = none ∧
      ∀ j, (alloc fAlloc a l).state.list_heads j = a.list_heads j) := by
  constructor
  · intro h hf
    simp [alloc, h, hf]
  · intro i h hh hf
    have hf2 : (fAlloc a.fallback_allocator
        ⟨BLOCK_SIZES[i]?.getD 0, BLOCK_SIZES[i]?.getD 0⟩).1 = none := by
      simpa using hf
    simp [alloc, h, hh, hf2]

/-- Witness for C7: the always-failing fallback yields a null result and
unchanged free lists both for the oversized request (4096, 4096) and for the
class-2 request (24, 8) on an empty class list. -/
theorem C7_witness :
    ((alloc failAlloc fsba0 ⟨4096, 4096⟩).ptr = none ∧
      (alloc failAlloc fsba0 ⟨4096, 4096⟩).state.list_heads 2 =
        fsba0.list_heads 2) ∧
    ((alloc failAlloc fsba0 ⟨4096, 8⟩).ptr = none ∧
      (alloc failAlloc fsba0 ⟨4096, 8⟩).state.list_heads 2 =
        fsba0.list_heads 2) ∧
    ((alloc failAlloc fsbaUnitEmpty ⟨24, 8⟩).ptr = none ∧
      (alloc failAlloc fsbaUnitEmpty ⟨24, 8⟩).state.list_heads 2 =
        fsbaUnitEmpty.list_heads 2) := by
  obtain ⟨hp1, hl1⟩ := (C7_fallback_failure_preserves_lists failAlloc fsba0
    ⟨4096, 4096⟩).1 (by decide) (by decide)
  obtain ⟨hp2, hl2⟩ := (C7_fallback_failure_preserves_lists failAlloc fsba0
    ⟨4096, 8⟩).1 (by decide) (by decide)
  obtain ⟨hp3, hl3⟩ := (C7_fallback_failure_preserves_lists failAlloc
    fsbaUnitEmpty ⟨24, 8⟩).2 2 (by decide) (by decide) (by decide)
  exact ⟨⟨hp1, hl1 2⟩, ⟨hp2, hl2 2⟩, ⟨hp3, hl3 2⟩⟩

-- ---------------------------------------------------------------------------
-- C10
-- ---------------------------------------------------------------------------

/-- C10: deallocating a null pointer with a layout that maps to no size class
panics at the NonNull unwrap (before the fallback allocator is reached),
while deallocating a null pointer with a layout that maps to a size class
performs no null check: the free-list node is written through the pointer and
becomes the class's head. -/
theorem C10_dealloc_null_pointer {F : Type}
    (fDealloc : F → Nat → Layout → F) (a : FixedSizeBlockAllocator F)
    (l : Layout) :
    (list_index l = none → dealloc fDealloc a 0 l = none) ∧
    (∀ i, list_index l = some i →
      dealloc fDealloc a 0 l =
        some ⟨⟨fun j => if j = i then 0 :: a.list_heads i
                 else a.list_heads j,
               a.fallback_allocator⟩,
              false, true⟩) := by
  constructor
  · intro h
    simp [dealloc, h]
  · intro i h
    obtain ⟨hsz, hal⟩ := list_index_node_fits l i h
    have hfit : LIST_NODE_SIZE ≤ BLOCK_SIZES[i]?.getD 0 ∧
        LIST_NODE_ALIGN ≤ BLOCK_SIZES[i]?.getD 0 := by
      simpa using And.intro hsz hal
    simp [dealloc, h, hfit.1, hfit.2]

/-- Witness for C10: with a null pointer, layout (4096, 4096) panics while
layout (20, 4) pushes the null address onto the class-2 free list. -/
theorem C10_witness :
    dealloc unitDealloc fsba0 0 ⟨4096, 4096⟩ = none ∧
    Option.map (fun out => out.state.list_heads 2)
      (dealloc unitDealloc fsba0 0 ⟨20, 4⟩) = some [0, 555] := by
  have h1 := (C10_dealloc_null_pointer unitDealloc fsba0 ⟨4096, 4096⟩).1
    (by decide)
  have h2 := (C10_dealloc_null_pointer unitDealloc fsba0 ⟨20, 4⟩).2 2
    (by decide)
  rw [h1, h2]
  constructor
  · rfl
  · simp [fsba0]

-- ---------------------------------------------------------------------------
-- C2
-- ---------------------------------------------------------------------------

theorem containing_address_mul (n : Nat) :
    containing_address (4096 * n) = 4096 * n := by
  unfold containing_address
  omega

/-- The usable frames of the one-region 16-frame map are the 16 consecutive
frame bases starting at frame s. -/
theorem useable_frames_map16 (s : Nat) :
    useable_frames (map16 s) = (List.range 16).map (fun i => 4096 * (s + i)) := by
  unfold useable_frames map16 step_by_4096
  simp [Nat.add_sub_cancel_left]
  intro i _
  rw [← Nat.mul_add]
  exact containing_address_mul (s + i)

theorem frame_state_after_init (m : List MemoryRegion) (n : Nat) :
    frame_state_after (BootInfoFrameAllocator.init m) n = ⟨m, n⟩ := by
  induction n with
  | zero => rfl
  | succ n ih => simp [frame_state_after, ih, allocate_frame]

theorem call_result_init (m : List MemoryRegion) (k : Nat) :
    call_result (BootInfoFrameAllocator.init m) k =
      (useable_frames m).get? k := by
  simp [call_result, frame_state_after_init, allocate_frame]

/-- C2: on a freshly initialized allocator over a map with one usable region
of 16 frames starting at frame s, the first 16 allocate_frame calls return
the 16 distinct frame addresses 4096 * (s + k), spaced 4096 bytes apart, and
every call from the 17th on returns none. -/
theorem C2_sixteen_frames_then_exhausted (s k i j : Nat) :
    (k < 16 →
      call_result (BootInfoFrameAllocator.init (map16 s)) k =
        some (4096 * (s + k))) ∧
    (16 ≤ k →
      call_result (BootInfoFrameAllocator.init (map16 s)) k = none) ∧
    (i < 16 → j < 16 → i ≠ j →
      call_result (BootInfoFrameAllocator.init (map16 s)) i ≠
        call_result (BootInfoFrameAllocator.init (map16 s)) j) := by
  have key : ∀ n, n < 16 →
      call_result (BootInfoFrameAllocator.init (map16 s)) n =
        some (4096 * (s + n)) := by
    intro n hn
    rw [call_result_init, useable_frames_map16]
    interval_cases n <;> rfl
  refine ⟨key k, ?_, ?_⟩
  · intro hk
    rw [call_result_init, useable_frames_map16]
    apply List.get?_eq_none.mpr
    simpa using hk
  · intro hi hj hne
    rw [key i hi, key j hj]
    simp
    omega

/-- Witness for C2 at s = 3: call 6 returns frame 4096 * 8, call 21 is
exhausted, and calls 3 and 8 return distinct frames. -/
theorem C2_witness :
    call_result (BootInfoFrameAllocator.init (map16 3)) 5 =
      some (4096 * (3 + 5)) ∧
    call_result (BootInfoFrameAllocator.init (map16 3)) 20 = none ∧
    call_result (BootInfoFrameAllocator.init (map16 3)) 2 ≠
      call_result (BootInfoFrameAllocator.init (map16 3)) 7 :=
  ⟨(C2_sixteen_frames_then_exhausted 3 5 0 0).1 (by decide),
   (C2_sixteen_frames_then_exhausted 3 20 0 0).2.1 (by decide),
   (C2_sixteen_frames_then_exhausted 3 0 2 7).2.2 (by decide) (by decide)
     (by decide)⟩

-- ---------------------------------------------------------------------------
-- C3 and C9: heap initializer
-- ---------------------------------------------------------------------------

theorem init_heap_loop_append {M F : Type}
    (mapTo : M → Nat → Nat → F → Except MapToError Unit × M × F)
    (allocFrame : F → Option Nat × F) (l1 l2 : List Nat) (m : M) (fa : F) :
    init_heap_loop mapTo allocFrame (l1 ++ l2) m fa =
      match init_heap_loop mapTo allocFrame l1 m fa with
      | (Except.ok _, m1, fa1) => init_heap_loop mapTo allocFrame l2 m1 fa1
      | (Except.error e, m1, fa1) => (Except.error e, m1, fa1) := by
  induction l1 generalizing m fa with
  | nil => simp [init_heap_loop]
  | cons p ps ih =>
    rw [List.cons_append]
    simp only [init_heap_loop]
    rcases haf : allocFrame fa with ⟨of, fa1⟩
    cases of with
    | none => simp
    | some f =>
      rcases hmt : mapTo m p f fa1 with ⟨st, m1, fa2⟩
      cases st with
      | ok u => simp [hmt, ih]
      | error e => simp [hmt]

/-- C9: init_heap iterates the three heap pages in order; on the first
frame-allocation failure it returns FrameAllocationFailed with the mapper
left exactly in the state produced by the already-processed prefix (no
further mapping, no rollback), on the first mapping failure it returns that
error with the states map_to left behind, and only when every page succeeds
does it initialize the block allocator with (HEAP_START, HEAP_SIZE) and
return Ok. -/
theorem C9_init_heap_stops_at_first_error {M F : Type}
    (mapTo : M → Nat → Nat → F → Except MapToError Unit × M × F)
    (allocFrame : F → Option Nat × F) (m : M) (fa : F) :
    heap_page_range = [HEAP_START, HEAP_START + 4096, HEAP_START + 8192] ∧
    (∀ pre p rest m1 fa1,
      heap_page_range = pre ++ p :: rest →
      init_heap_loop mapTo allocFrame pre m fa = (Except.ok (), m1, fa1) →
      (∀ fa2, allocFrame fa1 = (none, fa2) →
        init_heap mapTo allocFrame m fa =
          (Except.error MapToError.FrameAllocationFailed, m1, fa2, none)) ∧
      (∀ f fa2 e m2 fa3, allocFrame fa1 = (some f, fa2) →
        mapTo m1 p f fa2 = (Except.error e, m2, fa3) →
        init_heap mapTo allocFrame m fa =
          (Except.error e, m2, fa3, none))) ∧
    (∀ m1 fa1,
      init_heap_loop mapTo allocFrame heap_page_range m fa =
        (Except.ok (), m1, fa1) →
      init_heap mapTo allocFrame m fa =
        (Except.ok ⟨HEAP_START, containing_address HEAP_START, HEAP_SIZE⟩,
         m1, fa1, some (HEAP_START, HEAP_SIZE))) := by
  refine ⟨by decide, ?_, ?_⟩
  · intro pre p rest m1 fa1 hsplit hpre
    constructor
    · intro fa2 haf
      unfold init_heap
      rw [hsplit, init_heap_loop_append, hpre]
      simp [init_heap_loop, haf]
    · intro f fa2 e m2 fa3 haf hmt
      unfold init_heap
      rw [hsplit, init_heap_loop_append, hpre]
      simp [init_heap_loop, haf, hmt]
  · intro m1 fa1 hloop
    unfold init_heap
    rw [hloop]

/-- Witness for C9: with the logging mapper, the sequential frame allocator
completes all three pages, while the one-frame allocator fails on the second
page, returning FrameAllocationFailed with only the first page mapped. -/
theorem C9_witness :
    init_heap mapToLog seqAlloc [] 0 =
      (Except.ok ⟨HEAP_START, containing_address HEAP_START, HEAP_SIZE⟩,
       [(HEAP_START, 0x1000), (HEAP_START + 4096, 0x2000),
        (HEAP_START + 8192, 0x3000)], 3,
       some (HEAP_START, HEAP_SIZE)) ∧
    init_heap mapToLog oneFrameAlloc [] 0 =
      (Except.error MapToError.FrameAllocationFailed,
       [(HEAP_START, 0x1000)], 2, none) := by
  constructor
  · exact (C9_init_heap_stops_at_first_error mapToLog seqAlloc [] 0).2.2
      [(HEAP_START, 0x1000), (HEAP_START + 4096, 0x2000),
       (HEAP_START + 8192, 0x3000)] 3 (by rfl)
  · exact ((C9_init_heap_stops_at_first_error mapToLog oneFrameAlloc
        [] 0).2.1 [HEAP_START] (HEAP_START + 4096) [HEAP_START + 8192]
        [(HEAP_START, 0x1000)] 1 (by decide) (by rfl)).1 2 (by rfl)

/-- Counterexample for C3 as stated: on success the descriptor's second field
(start_phys_addr) holds the heap's start virtual page, not the start physical
frame backing the heap.  With a frame allocator handing out 0x1000 first, the
first page is backed by frame 0x1000, yet the field holds HEAP_START. -/
theorem C3_counterexample :
    (init_heap mapToLog seqAlloc [] 0).1 =
      Except.ok ⟨HEAP_START, HEAP_START, HEAP_SIZE⟩ ∧
    (init_heap mapToLog seqAlloc [] 0).2.1.head? =
      some (HEAP_START, 0x1000) ∧
    (HeapInfo.mk HEAP_START HEAP_START HEAP_SIZE).start_phys_addr ≠
      0x1000 := by
  refine ⟨by rfl, by rfl, by decide⟩

/-- C3 (amended): on success, init_heap returns a descriptor whose fields are
the heap's start virtual address HEAP_START, the start virtual page of the
heap range (stored in the field named start_phys_addr, and numerically equal
to HEAP_START since the heap start is page-aligned), and the heap size
HEAP_SIZE. -/
theorem C3_success_descriptor {M F : Type}
    (mapTo : M → Nat → Nat → F → Except MapToError Unit × M × F)
    (allocFrame : F → Option Nat × F) (m : M) (fa : F) (m1 : M) (fa1 : F)
    (h : init_heap_loop mapTo allocFrame heap_page_range m fa =
      (Except.ok (), m1, fa1)) :
    init_heap mapTo allocFrame m fa =
      (Except.ok ⟨HEAP_START, containing_address HEAP_START, HEAP_SIZE⟩,
       m1, fa1, some (HEAP_START, HEAP_SIZE)) ∧
    containing_address HEAP_START = HEAP_START := by
  refine ⟨?_, by decide⟩
  unfold init_heap
  rw [h]

/-- Witness for the amended C3 with the logging mapper and sequential frame
allocator. -/
theorem C3_witness :
    init_heap mapToLog seqAlloc [] 0 =
      (Except.ok ⟨HEAP_START, containing_address HEAP_START, HEAP_SIZE⟩,
       [(HEAP_START, 0x1000), (HEAP_START + 4096, 0x2000),
        (HEAP_START + 8192, 0x3000)], 3,
       some (HEAP_START, HEAP_SIZE)) ∧
    containing_address HEAP_START = HEAP_START :=
  C3_success_descriptor mapToLog seqAlloc [] 0
    [(HEAP_START, 0x1000), (HEAP_START + 4096, 0x2000),
     (HEAP_START + 8192, 0x3000)] 3 (by rfl)

-- ---------------------------------------------------------------------------
-- C8
-- ---------------------------------------------------------------------------

/-- C8: translate_addr walks the four page-table levels from the root.  When
all four entries along the chain are present leaf-chain entries it returns
the final frame's base address plus the address's page offset; when the first
divergent entry at any level is absent it returns unmapped; when the first
divergent entry before the final level is a huge-page leaf it reaches the
fatal (panicking) huge-page case. -/
theorem C8_translate_addr_walk (mem : Nat → Nat → PTEntry)
    (root addr : Nat) :
    (∀ f3 f2 f1 f0,
      mem root (p4_index addr) = PTEntry.present f3 →
      mem f3 (p3_index addr) = PTEntry.present f2 →
      mem f2 (p2_index addr) = PTEntry.present f1 →
      mem f1 (p1_index addr) = PTEntry.present f0 →
      translate_addr mem root addr =
        TranslateResult.mapped (f0 + page_offset addr)) ∧
    ((mem root (p4_index addr) = PTEntry.notPresent →
        translate_addr mem root addr = TranslateResult.unmapped) ∧
     (∀ f3, mem root (p4_index addr) = PTEntry.present f3 →
        mem f3 (p3_index addr) = PTEntry.notPresent →
        translate_addr mem root addr = TranslateResult.unmapped) ∧
     (∀ f3 f2, mem root (p4_index addr) = PTEntry.present f3 →
        mem f3 (p3_index addr) = PTEntry.present f2 →
        mem f2 (p2_index addr) = PTEntry.notPresent →
        translate_addr mem root addr = TranslateResult.unmapped) ∧
     (∀ f3 f2 f1, mem root (p4_index addr) = PTEntry.present f3 →
        mem f3 (p3_index addr) = PTEntry.present f2 →
        mem f2 (p2_index addr) = PTEntry.present f1 →
        mem f1 (p1_index addr) = PTEntry.notPresent →
        translate_addr mem root addr = TranslateResult.unmapped)) ∧
    ((∀ g, mem root (p4_index addr) = PTEntry.hugePage g →
        translate_addr mem root addr = TranslateResult.fatalHuge) ∧
     (∀ f3 g, mem root (p4_index addr) = PTEntry.present f3 →
        mem f3 (p3_index addr) = PTEntry.hugePage g →
        translate_addr mem root addr = TranslateResult.fatalHuge) ∧
     (∀ f3 f2 g, mem root (p4_index addr) = PTEntry.present f3 →
        mem f3 (p3_index addr) = PTEntry.present f2 →
        mem f2 (p2_index addr) = PTEntry.hugePage g →
        translate_addr mem root addr = TranslateResult.fatalHuge)) := by
  refine ⟨?_, ⟨?_, ?_, ?_, ?_⟩, ⟨?_, ?_, ?_⟩⟩
  · intro f3 f2 f1 f0 h4 h3 h2 h1
    simp [translate_addr, translate_addr_inner, pt_walk, h4, h3, h2, h1]
  · intro h4
    simp [translate_addr, translate_addr_inner, pt_walk, h4]
  · intro f3 h4 h3
    simp [translate_addr, translate_addr_inner, pt_walk, h4, h3]
  · intro f3 f2 h4 h3 h2
    simp [translate_addr, translate_addr_inner, pt_walk, h4, h3, h2]
  · intro f3 f2 f1 h4 h3 h2 h1
    simp [translate_addr, translate_addr_inner, pt_walk, h4, h3, h2, h1]
  · intro g h4
    simp [translate_addr, translate_addr_inner, pt_walk, h4]
  · intro f3 g h4 h3
    simp [translate_addr, translate_addr_inner, pt_walk, h4, h3]
  · intro f3 f2 g h4 h3 h2
    simp [translate_addr, translate_addr_inner, pt_walk, h4, h3, h2]

/-- Witness for C8 on the concrete table memory wMem at address 0: the chain
from root 100 translates to physical address 5000, root 999 is unmapped, and
root 50 hits the fatal huge-page case. -/
theorem C8_witness :
    translate_addr wMem 100 0 = TranslateResult.mapped 5000 ∧
    translate_addr wMem 999 0 = TranslateResult.unmapped ∧
    translate_addr wMem 50 0 = TranslateResult.fatalHuge :=
  ⟨(C8_translate_addr_walk wMem 100 0).1 200 300 400 5000 rfl rfl rfl rfl,
   (C8_translate_addr_walk wMem 999 0).2.1.1 rfl,
   (C8_translate_addr_walk wMem 50 0).2.2.1 77 rfl⟩
